import Mathlib

/-!
Verification of the `411-resources` repository against its design
specification.

The repository holds two artifacts:
* `wildlife_tracker` (HW3 Design): Python class sketches (`Animal`,
  `HabitatManager`, `MigrationManager`, ...) whose constructors contain the
  only executable code; the other methods are `pass` placeholders.
* `meal_max`: a unit-test file for a SQL-backed CRUD model
  (`create_meal`, `delete_meal`, `get_meal_by_id`, ...) whose implementation
  module is not among the supplied files.

The specification distils both into one component, an in-memory
`EntityRegistry` (spec section 4.1) with operations `create`, `remove`,
`get`, `list_by` and `update`, three error kinds (`ValidationError`,
`NotFoundError`, `DuplicateKeyError`) and a soft-delete lifecycle.  Since
the registry implementation itself is not in the supplied sources (only its
tests and the manager-class call sites are), the registry below is modelled
from the spec; the wildlife constructors are embedded directly from the
Python source.
-/

/-! ## Part 1: the EntityRegistry (spec section 3, 4.1, 7)

Modelled from the spec: the module `meal_max/models/kitchen_model.py`
implementing the CRUD operations is missing from the supplied files, so the
registry is built from the words of spec sections 3 (data model), 4.1
(operations) and 7 (error kinds). -/

/-- Modelled from the spec: an attribute value is a string or a number
(spec section 3: "a mapping of named attributes to values (strings, numbers,
optional values)"); optionality is expressed by an attribute being absent
from the mapping. Numbers are modelled as rationals so that both prices
(floats in the source tests) and sizes (integers) are covered. -/
inductive Value where
  | str (s : String)
  | num (q : Rat)
deriving DecidableEq

/-- Modelled from the spec: the type an entity kind's schema assigns to an
attribute (spec section 4.1: "validates required attributes are present and
well-typed per the kind's schema (e.g., price is a non-negative number, a
size is a positive integer)"). -/
inductive FieldType where
  | string
  | nonnegNum
  | posInt
deriving DecidableEq

/-- Whether a value is well-typed for a field type. -/
def FieldType.validFor : FieldType → Value → Bool
  | .string, .str _ => true
  | .nonnegNum, .num q => decide (0 ≤ q)
  | .posInt, .num q => q.den == 1 && decide (0 < q)
  | _, _ => false

/-- Modelled from the spec: an entity is an immutable integer identifier
plus a mapping of named attributes to values (spec section 3), carrying the
sketched soft-delete flag (`deleted` column in the tests; spec section 3:
"the sketched `deleted` flag suggests soft-delete is acceptable"). -/
structure Entity where
  id : Nat
  attrs : List (String × Value)
  deleted : Bool
deriving DecidableEq

/-- Modelled from the spec: the registry owns the authoritative mapping
from id to entity for one kind (spec section 4.1), kept in insertion order,
together with the kind's schema and the next id to assign when the caller
does not supply one. -/
structure Registry where
  schema : List (String × FieldType)
  entities : List Entity
  nextId : Nat
deriving DecidableEq

/-- Modelled from the spec: the three error kinds of spec section 7. -/
inductive RegError where
  | validationError (msg : String)
  | notFoundError
  | duplicateKeyError
deriving DecidableEq

/-- A freshly constructed, empty registry for a kind; ids assigned by the
registry start at 1 (spec section 8 example: the first `create` returns
id 1). -/
def Registry.empty (schema : List (String × FieldType)) : Registry :=
  { schema := schema, entities := [], nextId := 1 }

/-- The validation message for a value that fails its field type; for a
negative price this is the message of spec section 8:
"`create({..., price:-1.0, ...})` fails with `ValidationError`
(\"price must be ≥ 0\")". -/
def typeErrorMsg (name : String) : FieldType → String
  | .string => name ++ " must be a string"
  | .nonnegNum => name ++ " must be ≥ 0"
  | .posInt => name ++ " must be a positive integer"

/-- Checks every supplied attribute against the schema: an attribute name
not in the kind's schema, or a value not well-typed for its field type, is
a validation error (spec section 3: "unknown attribute names fail with a
validation error rather than silently creating new fields").  Returns the
first error message, or `none` when all supplied attributes are valid. -/
def checkSupplied (schema : List (String × FieldType)) :
    List (String × Value) → Option String
  | [] => none
  | (n, v) :: rest =>
    match schema.lookup n with
    | none => some (n ++ " is not an attribute of this kind")
    | some t =>
      if t.validFor v then checkSupplied schema rest else some (typeErrorMsg n t)

/-- Checks every schema attribute is supplied (spec section 4.1: `create`
"fails with ... `ValidationError` if a required attribute is missing"). -/
def checkRequired (attrs : List (String × Value)) :
    List (String × FieldType) → Option String
  | [] => none
  | (n, _) :: rest =>
    match attrs.lookup n with
    | some _ => checkRequired attrs rest
    | none => some (n ++ " is required")

/-- Full validation used by `create`: supplied attributes are known and
well-typed, and all required attributes are present. -/
def validateAttrs (schema : List (String × FieldType))
    (attrs : List (String × Value)) : Option String :=
  match checkSupplied schema attrs with
  | some msg => some msg
  | none => checkRequired attrs schema

/-- The first stored entity with the given id, deleted or not. -/
def Registry.findEntity (r : Registry) (id : Nat) : Option Entity :=
  r.entities.find? (fun e => e.id == id)

/-- Modelled from the spec: `create(attributes) -> id` (spec section 4.1).
Validates the attributes per the kind's schema, then assigns
(`explicitId = none`) or accepts an id; fails with `DuplicateKeyError` if
the id already exists (deleted entities included: ids are unique "for the
lifetime of the registry", spec section 3), `ValidationError` if a required
attribute is missing or a supplied one is invalid.  The new entity is
appended, so `entities` stays in creation order.  Validation precedes the
duplicate check, matching both the spec's operation order ("validates
required attributes ...; assigns or accepts an id") and the tested
behaviour of `create_meal`, which validates its arguments before the
INSERT that can report a duplicate. -/
def Registry.create (r : Registry) (explicitId : Option Nat)
    (attrs : List (String × Value)) : Except RegError (Nat × Registry) :=
  match validateAttrs r.schema attrs with
  | some msg => .error (.validationError msg)
  | none =>
    if r.entities.any (fun e => e.id == explicitId.getD r.nextId) then
      .error .duplicateKeyError
    else
      .ok (explicitId.getD r.nextId, { r with
        entities := r.entities ++
          [{ id := explicitId.getD r.nextId, attrs := attrs, deleted := false }],
        nextId := max r.nextId (explicitId.getD r.nextId + 1) })

/-- Modelled from the spec: `get(id) -> Entity`, failing with
`NotFoundError` if absent or removed (spec sections 4.1 and 3: "An entity
once removed is no longer returned by lookup"). -/
def Registry.get (r : Registry) (id : Nat) : Except RegError Entity :=
  match r.findEntity id with
  | some e => if e.deleted then .error .notFoundError else .ok e
  | none => .error .notFoundError

/-- Modelled from the spec: `remove(id)`, failing with `NotFoundError` if
no live entity has that id; otherwise marks the entity absent by setting
its soft-delete flag (spec section 4.1 and the `UPDATE meals SET deleted =
TRUE` of the tests). -/
def Registry.remove (r : Registry) (id : Nat) : Except RegError Registry :=
  match r.findEntity id with
  | none => .error .notFoundError
  | some e =>
    if e.deleted then .error .notFoundError
    else .ok { r with
      entities := r.entities.map (fun e' =>
        if e'.id == id then { e' with deleted := true } else e') }

/-- Modelled from the spec: one `list_by` constraint — equality on a value,
or an inclusive numeric range (spec section 4.1: "equality (or range, for
numeric attributes like size) constraints"). -/
inductive Constraint where
  | eqC (v : Value)
  | rangeC (lo hi : Rat)
deriving DecidableEq

/-- Whether a stored value satisfies a constraint. -/
def Constraint.sat : Constraint → Value → Bool
  | .eqC v, w => v == w
  | .rangeC lo hi, .num q => decide (lo ≤ q) && decide (q ≤ hi)
  | .rangeC _ _, .str _ => false

/-- Whether an entity satisfies every constraint of a predicate-attribute
map (an absent attribute satisfies no constraint). -/
def matchesAll (cs : List (String × Constraint)) (e : Entity) : Bool :=
  cs.all (fun c =>
    match e.attrs.lookup c.1 with
    | some v => c.2.sat v
    | none => false)

/-- Modelled from the spec: `list_by(predicate_attributes)` — all live
entities whose attributes match the constraints, in insertion order; the
empty constraint returns all live entities (spec section 4.1). -/
def Registry.list_by (r : Registry) (cs : List (String × Constraint)) :
    List Entity :=
  r.entities.filter (fun e => !e.deleted && matchesAll cs e)

/-- Applies a partial attribute map to an attribute list, replacing the
value of each named field; no new field is ever created. -/
def updateAttrs (attrs : List (String × Value)) (upd : List (String × Value)) :
    List (String × Value) :=
  upd.foldl (fun a p =>
    a.map (fun q => if q.1 == p.1 then (q.1, p.2) else q)) attrs

/-- Modelled from the spec: `update(id, partial_attributes)`, failing with
`NotFoundError` if the id is absent or removed, `ValidationError` if any
supplied attribute name or value is invalid for the kind (spec section 4.1
and section 3's invariant on unknown attribute names). -/
def Registry.update (r : Registry) (id : Nat) (upd : List (String × Value)) :
    Except RegError Registry :=
  match r.findEntity id with
  | none => .error .notFoundError
  | some e =>
    if e.deleted then .error .notFoundError
    else
      match checkSupplied r.schema upd with
      | some msg => .error (.validationError msg)
      | none => .ok { r with
          entities := r.entities.map (fun e' =>
            if e'.id == id then { e' with attrs := updateAttrs e'.attrs upd }
            else e') }

/-- A state-changing registry operation (`get` and `list_by` are read-only
and do not appear). -/
inductive Op where
  | createOp (explicitId : Option Nat) (attrs : List (String × Value))
  | removeOp (id : Nat)
  | updateOp (id : Nat) (upd : List (String × Value))
deriving DecidableEq

/-- Runs one operation against the registry; on error the state is
unchanged (spec section 7: "No partial-failure state is possible because
each operation is atomic with respect to the registry's single map"). -/
def applyOp (r : Registry) : Op → Registry
  | .createOp eid attrs =>
    match r.create eid attrs with
    | .ok p => p.2
    | .error _ => r
  | .removeOp id =>
    match r.remove id with
    | .ok r' => r'
    | .error _ => r
  | .updateOp id upd =>
    match r.update id upd with
    | .ok r' => r'
    | .error _ => r

/-- Runs a sequence of operations. -/
def applyOps (r : Registry) (ops : List Op) : Registry :=
  ops.foldl applyOp r

/-- All entity ids stored in the registry (live and soft-deleted) are
pairwise distinct. -/
def uniqueIds (r : Registry) : Prop :=
  (r.entities.map (fun e => e.id)).Nodup

/-- The first stored entity with the given id exists and carries the
soft-delete mark. -/
def isDeleted (r : Registry) (id : Nat) : Bool :=
  match r.findEntity id with
  | some e => e.deleted
  | none => false

/-- The schema of the `Meal` kind, from the spec section 8 example
`create({name:"Meal Name", cuisine:"Meal Cuisine", price:42.0,
difficulty:"LOW"})` with price a non-negative number (spec section 4.1). -/
def mealSchema : List (String × FieldType) :=
  [("name", .string), ("cuisine", .string), ("price", .nonnegNum),
   ("difficulty", .string)]

/-- The valid attribute set of the spec section 8 example. -/
def mealExampleAttrs : List (String × Value) :=
  [("name", .str "Meal Name"), ("cuisine", .str "Meal Cuisine"),
   ("price", .num 42), ("difficulty", .str "LOW")]

/-- The invalid attribute set of the spec section 8 example: the same call
with `price:-1.0`. -/
def mealExampleBadAttrs : List (String × Value) :=
  [("name", .str "Meal Name"), ("cuisine", .str "Meal Cuisine"),
   ("price", .num (-1)), ("difficulty", .str "LOW")]

/-! ## Part 2: the wildlife_tracker constructors (embedded from source)

`animal.py` and `habitat_manger.py` are in the supplied sources; their
`__init__` bodies are the only executable statements, and are embedded
here directly. -/

/-- Python's `x or None` on an `Optional[int]` argument: `None` and the
falsy integer `0` give `None`, any other integer is kept
(`animal.py`, `self.age = age or None`). -/
def pyOrNoneInt : Option Int → Option Int
  | none => none
  | some n => if n == 0 then none else some n

/-- Python's `x or None` on an `Optional[str]` argument: `None` and the
falsy empty string give `None`, any other string is kept
(`animal.py`, `self.health_status = health_status or None`). -/
def pyOrNoneStr : Option String → Option String
  | none => none
  | some s => if s == "" then none else some s

/-- The instance attributes an `Animal` object carries after `__init__`
(`animal.py` lines 5-13). -/
structure Animal where
  age : Option Int
  animal_id : Int
  species : String
  health_status : Option String
deriving DecidableEq

/-- Embeds `Animal.__init__` (`animal.py`): the four parameters in source
order; `age` and `health_status` pass through `... or None`, the other two
are stored as given. -/
def Animal.init (age : Option Int) (animal_id : Int)
    (health_status : Option String) (species : String) : Animal :=
  { age := pyOrNoneInt age
    animal_id := animal_id
    species := species
    health_status := pyOrNoneStr health_status }

/-- The record a `Habitat` would carry, from the parameters of
`HabitatManager.create_habitat` (`habitat_manger.py`). -/
structure Habitat where
  habitat_id : Int
  geographic_area : String
  size : Int
  environment_type : String
deriving DecidableEq

/-- Embeds `HabitatManager.__init__` (`habitat_manger.py` lines 5-6) as the
mapping from instance-attribute name to stored habitat dictionary that the
constructed object carries.  The body's single statement
`habitats: dict[int, Habitat] = {}` is an annotated assignment to the LOCAL
name `habitats` — there is no `self.habitats = ...` — so the local binding
appears below as a `let` that never reaches the result, and the constructed
object carries no instance attribute at all. -/
def HabitatManager.init : List (String × List (Int × Habitat)) :=
  let habitats : List (Int × Habitat) := []
  []

/-- For contrast, `MigrationManager.__init__` (`migration_manager.py`) does
assign `self.migrations = {}` and `self.paths = {}`, so its constructed
object carries exactly those two (empty) stores; modelling attribute values
as lists of keyed records as above. -/
def MigrationManager.init : List (String × List (Int × List (String × Value))) :=
  [("migrations", []), ("paths", [])]

/-! ## Helper lemmas -/

/-- `find?` by id commutes with mapping an id-preserving function over the
entity list. -/
theorem find?_map_id_pres (l : List Entity) (id : Nat) (f : Entity → Entity)
    (hf : ∀ e, (f e).id = e.id) :
    (l.map f).find? (fun e => e.id == id) =
      (l.find? (fun e => e.id == id)).map f := by
  induction l with
  | nil => rfl
  | cons a l ih =>
    simp only [List.map_cons, List.find?_cons, hf a]
    cases h : (a.id == id) <;> simp [h, ih]

/-- Mapping an id-preserving function over the entity list leaves the list
of ids unchanged. -/
theorem map_id_of_pres (l : List Entity) (f : Entity → Entity)
    (hf : ∀ e, (f e).id = e.id) :
    (l.map f).map (fun e => e.id) = l.map (fun e => e.id) := by
  rw [List.map_map]
  exact List.map_congr_left (fun e _ => hf e)

/-- Elimination for a successful `create`: the attributes validated, the id
was fresh, and the new entity was appended. -/
theorem Registry.create_ok {r r' : Registry} {eid : Option Nat}
    {A : List (String × Value)} {id : Nat}
    (h : r.create eid A = .ok (id, r')) :
    validateAttrs r.schema A = none ∧
    r.entities.any (fun e => e.id == id) = false ∧
    id = eid.getD r.nextId ∧
    r' = { r with
      entities := r.entities ++ [{ id := id, attrs := A, deleted := false }],
      nextId := max r.nextId (id + 1) } := by
  unfold Registry.create at h
  split at h
  · exact absurd h (by simp)
  · rename_i hval
    split at h
    · exact absurd h (by simp)
    · rename_i hany
      simp only [Except.ok.injEq, Prod.mk.injEq] at h
      obtain ⟨h1, h2⟩ := h
      subst h1
      exact ⟨hval, by simpa using hany, rfl, h2.symm⟩

/-- Elimination for a successful `remove`: a live entity with the id was
found and every entity with that id got its soft-delete flag set. -/
theorem Registry.remove_ok {r r' : Registry} {id : Nat}
    (h : r.remove id = .ok r') :
    ∃ e, r.findEntity id = some e ∧ e.deleted = false ∧
      r' = { r with entities := r.entities.map (fun e' =>
        if e'.id == id then { e' with deleted := true } else e') } := by
  unfold Registry.remove at h
  split at h
  · exact absurd h (by simp)
  · rename_i e hfind
    split at h
    · exact absurd h (by simp)
    · rename_i hdel
      exact ⟨e, hfind, by simpa using hdel, by simpa using h.symm⟩

/-- Elimination for a successful `update`: a live entity with the id was
found, the supplied attributes validated, and every entity with that id had
the partial map applied. -/
theorem Registry.update_ok {r r' : Registry} {id : Nat}
    {upd : List (String × Value)} (h : r.update id upd = .ok r') :
    ∃ e, r.findEntity id = some e ∧ e.deleted = false ∧
      checkSupplied r.schema upd = none ∧
      r' = { r with entities := r.entities.map (fun e' =>
        if e'.id == id then { e' with attrs := updateAttrs e'.attrs upd }
        else e') } := by
  unfold Registry.update at h
  split at h
  · exact absurd h (by simp)
  · rename_i e hfind
    split at h
    · exact absurd h (by simp)
    · rename_i hdel
      split at h
      · exact absurd h (by simp)
      · rename_i hchk
        exact ⟨e, hfind, by simpa using hdel, hchk, by simpa using h.symm⟩

/-- A fresh id in a successful `create` differs from the id of every stored
entity, so lookups are unaffected by the append. -/
theorem find?_of_any_false (l : List Entity) (id : Nat)
    (h : l.any (fun e => e.id == id) = false) :
    l.find? (fun e => e.id == id) = none := by
  rw [List.find?_eq_none]
  intro e he hpred
  have : l.any (fun e => e.id == id) = true := List.any_eq_true.mpr ⟨e, he, hpred⟩
  rw [h] at this
  exact Bool.false_ne_true this

/-- The soft-delete mark on an id survives any single operation: a create
cannot reuse the id, a remove only sets more marks, an update changes only
attributes, and a failed operation leaves the state unchanged. -/
theorem isDeleted_applyOp (r : Registry) (id : Nat) (op : Op)
    (h : isDeleted r id = true) : isDeleted (applyOp r op) id = true := by
  have hfind : ∃ e, r.findEntity id = some e ∧ e.deleted = true := by
    unfold isDeleted at h
    split at h
    · rename_i e he; exact ⟨e, he, h⟩
    · exact absurd h (by simp)
  obtain ⟨e, he, hdel⟩ := hfind
  cases op with
  | createOp eid A =>
    simp only [applyOp]
    split
    · rename_i p hok
      obtain ⟨-, -, -, hr⟩ := Registry.create_ok hok
      unfold isDeleted Registry.findEntity at *
      rw [hr]
      simp only [List.find?_append]
      rw [he]
      simpa using hdel
    · exact h
  | removeOp id' =>
    simp only [applyOp]
    split
    · rename_i r' hok
      obtain ⟨d, -, -, hr⟩ := Registry.remove_ok hok
      unfold isDeleted Registry.findEntity at *
      rw [hr]
      rw [find?_map_id_pres _ _ _ (fun e' => by split <;> rfl), he]
      simp only [Option.map_some']
      split <;> simpa using hdel
    · exact h
  | updateOp id' upd =>
    simp only [applyOp]
    split
    · rename_i r' hok
      obtain ⟨d, -, -, -, hr⟩ := Registry.update_ok hok
      unfold isDeleted Registry.findEntity at *
      rw [hr]
      rw [find?_map_id_pres _ _ _ (fun e' => by split <;> rfl), he]
      simp only [Option.map_some']
      split <;> simpa using hdel
    · exact h

/-- Pairwise-distinct ids survive any single operation. -/
theorem uniqueIds_applyOp (r : Registry) (op : Op) (h : uniqueIds r) :
    uniqueIds (applyOp r op) := by
  cases op with
  | createOp eid A =>
    simp only [applyOp]
    split
    · rename_i p hok
      obtain ⟨-, hany, -, hr⟩ := Registry.create_ok hok
      unfold uniqueIds at *
      rw [hr]
      simp only [List.map_append, List.map_cons, List.map_nil]
      rw [List.nodup_append]
      refine ⟨h, List.nodup_singleton _, ?_⟩
      intro a ha hb
      simp only [List.mem_singleton] at hb
      subst hb
      simp only [List.mem_map] at ha
      obtain ⟨e, he, hid⟩ := ha
      have hx : r.entities.any (fun e => e.id == p.1) = true :=
        List.any_eq_true.mpr ⟨e, he, by simpa using hid⟩
      rw [hany] at hx
      exact Bool.false_ne_true hx
    · exact h
  | removeOp id' =>
    simp only [applyOp]
    split
    · rename_i r' hok
      obtain ⟨d, -, -, hr⟩ := Registry.remove_ok hok
      unfold uniqueIds at *
      rw [hr]
      rw [map_id_of_pres _ _ (fun e' => by split <;> rfl)]
      exact h
    · exact h
  | updateOp id' upd =>
    simp only [applyOp]
    split
    · rename_i r' hok
      obtain ⟨d, -, -, -, hr⟩ := Registry.update_ok hok
      unfold uniqueIds at *
      rw [hr]
      rw [map_id_of_pres _ _ (fun e' => by split <;> rfl)]
      exact h
    · exact h

/-- Any property preserved by every single operation is preserved by every
operation sequence. -/
theorem inv_applyOps (P : Registry → Prop)
    (hP : ∀ r op, P r → P (applyOp r op)) (r : Registry) (ops : List Op)
    (h : P r) : P (applyOps r ops) := by
  induction ops generalizing r with
  | nil => exact h
  | cons op ops ih => exact ih _ (hP _ _ h)

/-- A lookup on a soft-deleted id fails with `NotFoundError`. -/
theorem get_of_isDeleted (r : Registry) (id : Nat)
    (h : isDeleted r id = true) : r.get id = .error .notFoundError := by
  unfold isDeleted at h
  unfold Registry.get
  split at h
  · rename_i e he
    simp [h]
  · exact absurd h (by simp)

/-- In a registry with pairwise-distinct ids, no listed entity carries a
soft-deleted id. -/
theorem list_by_of_isDeleted (r : Registry) (id : Nat)
    (cs : List (String × Constraint)) (hU : uniqueIds r)
    (h : isDeleted r id = true) :
    ∀ e ∈ r.list_by cs, e.id ≠ id := by
  intro e he hid
  unfold Registry.list_by at he
  rw [List.mem_filter] at he
  obtain ⟨hmem, hpred⟩ := he
  have hlive : e.deleted = false := by
    cases hd : e.deleted
    · rfl
    · rw [hd] at hpred; simp at hpred
  unfold isDeleted at h
  split at h
  · rename_i d hd
    have hdmem : d ∈ r.entities := List.mem_of_find?_eq_some hd
    have hdid : d.id = id := by simpa using List.find?_some hd
    have : d = e := List.inj_on_of_nodup_map hU hdmem hmem (by rw [hdid, hid])
    rw [this, hlive] at h
    exact absurd h (by simp)
  · exact absurd h (by simp)

/-! ## Claim theorems -/

/-- The registry obtained from the spec section 8 example `create` on an
empty meal registry: one live entity with id 1. -/
def mealRegistry1 : Registry :=
  { schema := mealSchema,
    entities := [{ id := 1, attrs := mealExampleAttrs, deleted := false }],
    nextId := 2 }

/-- Claim C1: for every valid attribute set A, `create(A)` followed by
`get(id)` with the returned id yields an entity whose attributes equal A
plus the assigned id (and which is live). -/
theorem create_get_roundtrip (r r' : Registry) (eid : Option Nat)
    (A : List (String × Value)) (id : Nat)
    (h : r.create eid A = .ok (id, r')) :
    r'.get id = .ok { id := id, attrs := A, deleted := false } := by
  obtain ⟨-, hany, -, hr⟩ := Registry.create_ok h
  subst hr
  unfold Registry.get Registry.findEntity
  simp only [List.find?_append, find?_of_any_false _ _ hany, Option.none_or]
  simp [List.find?]

/-- Witness for C1: the spec section 8 example create/get round-trip at
id 1 on an empty meal registry. -/
theorem create_get_roundtrip_witness :
    (Registry.empty mealSchema).create none mealExampleAttrs =
      .ok (1, mealRegistry1) ∧
    mealRegistry1.get 1 =
      .ok { id := 1, attrs := mealExampleAttrs, deleted := false } :=
  ⟨rfl, create_get_roundtrip (Registry.empty mealSchema) mealRegistry1
    none mealExampleAttrs 1 rfl⟩

/-- Claim C3: in a registry holding a live entity with id X, a second
`create` supplying the same explicit id X and a valid attribute set fails
with `DuplicateKeyError`, and the registry state — the first entity with
id X included — is unchanged by the failed call. -/
theorem create_duplicate_rejected (r : Registry) (X : Nat) (e : Entity)
    (A : List (String × Value)) (hfind : r.findEntity X = some e)
    (hlive : e.deleted = false) (hval : validateAttrs r.schema A = none) :
    r.create (some X) A = .error .duplicateKeyError ∧
    applyOp r (.createOp (some X) A) = r := by
  have hfind' : r.entities.find? (fun e' => e'.id == X) = some e := hfind
  have hpe := List.find?_some hfind'
  have hany : r.entities.any (fun e' => e'.id == X) = true :=
    List.any_eq_true.mpr
      ⟨e, List.mem_of_find?_eq_some hfind', hpe⟩
  have hc : r.create (some X) A = .error .duplicateKeyError := by
    unfold Registry.create
    rw [hval]
    simp [hany]
  exact ⟨hc, by simp [applyOp, hc]⟩

/-- Witness for C3: creating a second meal with explicit id 1 in the
example registry fails and leaves the registry unchanged. -/
theorem create_duplicate_rejected_witness :
    mealRegistry1.findEntity 1 =
      some { id := 1, attrs := mealExampleAttrs, deleted := false } ∧
    validateAttrs mealRegistry1.schema mealExampleAttrs = none ∧
    mealRegistry1.create (some 1) mealExampleAttrs =
      .error .duplicateKeyError ∧
    applyOp mealRegistry1 (.createOp (some 1) mealExampleAttrs) =
      mealRegistry1 :=
  ⟨rfl, rfl,
   create_duplicate_rejected mealRegistry1 1
     { id := 1, attrs := mealExampleAttrs, deleted := false }
     mealExampleAttrs rfl rfl rfl⟩

/-- Claim C4: `list_by` with the empty constraint set returns exactly the
live entities, in insertion order (a sublist of the stored order), and
every removed entity is excluded. -/
theorem list_by_empty_returns_live (r : Registry) :
    r.list_by [] = r.entities.filter (fun e => !e.deleted) ∧
    (r.list_by []).Sublist r.entities ∧
    ∀ e, e ∈ r.list_by [] ↔ e ∈ r.entities ∧ e.deleted = false := by
  have h1 : r.list_by [] = r.entities.filter (fun e => !e.deleted) := by
    unfold Registry.list_by
    apply List.filter_congr
    intro e _
    simp [matchesAll]
  refine ⟨h1, ?_, ?_⟩
  · rw [h1]
    exact List.filter_sublist _
  · intro e
    rw [h1, List.mem_filter]
    simp

/-- Claim C5: in every registry state reachable from the empty registry by
any sequence of operations, stored entity ids are pairwise distinct; since
removal is a soft delete that keeps the entity in the store, this is
uniqueness over the whole lifetime of the registry. -/
theorem reachable_ids_unique (s : List (String × FieldType)) (ops : List Op) :
    uniqueIds (applyOps (Registry.empty s) ops) :=
  inv_applyOps uniqueIds uniqueIds_applyOp _ ops
    (by simp [uniqueIds, Registry.empty])

/-- Claim C2: once `remove(id)` succeeds on a registry with pairwise
distinct ids, then after any further sequence of operations, `get(id)`
fails with `NotFoundError` and no `list_by` result contains an entity with
the removed id. -/
theorem remove_permanent (r r' : Registry) (id : Nat) (ops : List Op)
    (cs : List (String × Constraint)) (hU : uniqueIds r)
    (h : r.remove id = .ok r') :
    (applyOps r' ops).get id = .error .notFoundError ∧
    ∀ e ∈ (applyOps r' ops).list_by cs, e.id ≠ id := by
  have happ : applyOp r (.removeOp id) = r' := by
    simp [applyOp, h]
  have hU' : uniqueIds r' := happ ▸ uniqueIds_applyOp r _ hU
  have hdel : isDeleted r' id = true := by
    obtain ⟨e, hfind, hlive, hr⟩ := Registry.remove_ok h
    subst hr
    have hfind' : r.entities.find? (fun e' => e'.id == id) = some e := hfind
    have hpe := List.find?_some hfind'
    unfold isDeleted Registry.findEntity
    rw [find?_map_id_pres _ _ _ (fun e' => by split <;> rfl), hfind']
    simp only [Option.map_some']
    simp [hpe]
  have hfinal := inv_applyOps (fun st => isDeleted st id = true ∧ uniqueIds st)
    (fun st op hs => ⟨isDeleted_applyOp st id op hs.1, uniqueIds_applyOp st op hs.2⟩)
    r' ops ⟨hdel, hU'⟩
  exact ⟨get_of_isDeleted _ _ hfinal.1,
    list_by_of_isDeleted _ _ cs hfinal.2 hfinal.1⟩

/-- The example registry after removing meal 1. -/
def mealRegistry1Removed : Registry :=
  { schema := mealSchema,
    entities := [{ id := 1, attrs := mealExampleAttrs, deleted := true }],
    nextId := 2 }

/-- Witness for C2: after removing meal 1 and then creating a fresh meal,
`get 1` fails and the listing contains no entity with id 1. -/
theorem remove_permanent_witness :
    uniqueIds mealRegistry1 ∧
    mealRegistry1.remove 1 = .ok mealRegistry1Removed ∧
    (applyOps mealRegistry1Removed [.createOp none mealExampleAttrs]).get 1 =
      .error .notFoundError ∧
    ∀ e ∈ (applyOps mealRegistry1Removed
        [.createOp none mealExampleAttrs]).list_by [], e.id ≠ 1 :=
  ⟨by unfold uniqueIds; decide, rfl,
   remove_permanent mealRegistry1 mealRegistry1Removed 1
     [.createOp none mealExampleAttrs] [] (by unfold uniqueIds; decide) rfl⟩

/-- A single-field `updateAttrs` is a pointwise replacement over the
attribute list. -/
theorem updateAttrs_single (attrs : List (String × Value)) (f : String)
    (v : Value) :
    updateAttrs attrs [(f, v)] =
      attrs.map (fun q => if q.1 == f then (q.1, v) else q) := rfl

/-- After replacing field `f` by `v`, looking up `f` yields `v`, provided
`f` was present before. -/
theorem lookup_replace_self (attrs : List (String × Value)) (f : String)
    (v : Value) (h : (attrs.lookup f).isSome) :
    (attrs.map (fun q => if q.1 == f then (q.1, v) else q)).lookup f =
      some v := by
  induction attrs with
  | nil => simp [List.lookup] at h
  | cons p rest ih =>
    obtain ⟨k, w⟩ := p
    rw [List.map_cons]
    by_cases hk : k = f
    · subst hk
      have hhead : (if ((k, w).1 == k) = true then ((k, w).1, v) else (k, w))
          = (k, v) := by simp
      rw [hhead]
      simp [List.lookup]
    · have hkf : (k == f) = false := by simp [hk]
      have hfk : (f == k) = false := by simp [Ne.symm hk]
      have hhead : (if ((k, w).1 == f) = true then ((k, w).1, v) else (k, w))
          = (k, w) := by simp [hkf]
      rw [hhead]
      have h' : (rest.lookup f).isSome := by
        simpa [List.lookup, hfk] using h
      rw [show List.lookup f ((k, w) :: rest.map (fun q =>
          if q.1 == f then (q.1, v) else q)) = List.lookup f (rest.map (fun q =>
          if q.1 == f then (q.1, v) else q)) from by simp [List.lookup, hfk]]
      exact ih h'

/-- Replacing field `f` leaves the lookup of every other field unchanged. -/
theorem lookup_replace_other (attrs : List (String × Value)) (f g : String)
    (v : Value) (hg : g ≠ f) :
    (attrs.map (fun q => if q.1 == f then (q.1, v) else q)).lookup g =
      attrs.lookup g := by
  induction attrs with
  | nil => rfl
  | cons p rest ih =>
    obtain ⟨k, w⟩ := p
    rw [List.map_cons]
    by_cases hgk : g = k
    · subst hgk
      have hkf : (g == f) = false := by simp [hg]
      have hhead : (if ((g, w).1 == f) = true then ((g, w).1, v) else (g, w))
          = (g, w) := by simp [hkf]
      rw [hhead]
      simp [List.lookup]
    · have hne : (g == k) = false := by simp [hgk]
      by_cases hk : k = f
      · subst hk
        have hhead : (if ((k, w).1 == k) = true then ((k, w).1, v) else (k, w))
            = (k, v) := by simp
        rw [hhead]
        simp only [List.lookup, hne]
        exact ih
      · have hkf : (k == f) = false := by simp [hk]
        have hhead : (if ((k, w).1 == f) = true then ((k, w).1, v) else (k, w))
            = (k, w) := by simp [hkf]
        rw [hhead]
        simp only [List.lookup, hne]
        exact ih

/-- Claim C6: for a live entity with id X, a successful single-field
update `update(X, {f: v})` followed by `get(X)` returns an entity whose
value for `f` is `v` while every other attribute, the id and the liveness
flag are unchanged. -/
theorem update_single_field_frame (r r' : Registry) (X : Nat) (f : String)
    (v : Value) (e : Entity) (hget : r.get X = .ok e)
    (hf : (e.attrs.lookup f).isSome) (hupd : r.update X [(f, v)] = .ok r') :
    ∃ e', r'.get X = .ok e' ∧ e'.attrs.lookup f = some v ∧
      (∀ g, g ≠ f → e'.attrs.lookup g = e.attrs.lookup g) ∧
      e'.id = e.id ∧ e'.deleted = e.deleted := by
  have hget' : r.findEntity X = some e ∧ e.deleted = false := by
    unfold Registry.get at hget
    split at hget
    · rename_i e₀ he₀
      split at hget
      · exact absurd hget (by simp)
      · rename_i hd
        cases hget
        exact ⟨he₀, by simpa using hd⟩
    · exact absurd hget (by simp)
  obtain ⟨hfind, hlive⟩ := hget'
  obtain ⟨e₁, hfind₁, hlive₁, hchk, hr⟩ := Registry.update_ok hupd
  rw [hfind] at hfind₁
  have he₁ : e₁ = e := (Option.some.inj hfind₁).symm
  subst he₁
  have hfind' : r.entities.find? (fun e' => e'.id == X) = some e₁ := hfind
  have hpe := List.find?_some hfind'
  refine ⟨{ e₁ with attrs := updateAttrs e₁.attrs [(f, v)] }, ?_, ?_, ?_,
    rfl, rfl⟩
  · subst hr
    unfold Registry.get Registry.findEntity
    rw [find?_map_id_pres _ _ _ (fun e' => by split <;> rfl), hfind']
    simp only [Option.map_some']
    simp [hpe, hlive]
  · rw [updateAttrs_single]
    exact lookup_replace_self _ _ _ hf
  · intro g hg
    rw [updateAttrs_single]
    exact lookup_replace_other _ _ _ _ hg

/-- The live entity stored in the example registry. -/
def mealEntity1 : Entity :=
  { id := 1, attrs := mealExampleAttrs, deleted := false }

/-- The example registry after updating meal 1's price to 10. -/
def mealRegistry1Updated : Registry :=
  { schema := mealSchema,
    entities := [{ id := 1,
                   attrs := [("name", .str "Meal Name"),
                             ("cuisine", .str "Meal Cuisine"),
                             ("price", .num 10),
                             ("difficulty", .str "LOW")],
                   deleted := false }],
    nextId := 2 }

/-- Witness for C6: updating the example meal's price to 10 changes the
price and nothing else. -/
theorem update_single_field_frame_witness :
    mealRegistry1.get 1 = .ok mealEntity1 ∧
    (mealEntity1.attrs.lookup "price").isSome = true ∧
    mealRegistry1.update 1 [("price", .num 10)] = .ok mealRegistry1Updated ∧
    ∃ e', mealRegistry1Updated.get 1 = .ok e' ∧
      e'.attrs.lookup "price" = some (.num 10) ∧
      (∀ g, g ≠ "price" → e'.attrs.lookup g = mealEntity1.attrs.lookup g) ∧
      e'.id = mealEntity1.id ∧ e'.deleted = mealEntity1.deleted :=
  ⟨rfl, rfl, rfl,
   update_single_field_frame mealRegistry1 mealRegistry1Updated 1 "price"
     (.num 10) mealEntity1 rfl rfl rfl⟩

/-- An attribute pair that is unknown to the schema, or whose value fails
its field type, makes `checkSupplied` report an error. -/
theorem checkSupplied_isSome_of_bad (schema : List (String × FieldType))
    (attrs : List (String × Value)) (n : String) (v : Value)
    (hmem : (n, v) ∈ attrs)
    (hbad : schema.lookup n = none ∨
      ∃ t, schema.lookup n = some t ∧ t.validFor v = false) :
    ∃ msg, checkSupplied schema attrs = some msg := by
  induction attrs with
  | nil => simp at hmem
  | cons p rest ih =>
    obtain ⟨m, w⟩ := p
    rcases List.mem_cons.mp hmem with heq | hmem'
    · have hn : n = m := congrArg Prod.fst heq
      have hv : v = w := congrArg Prod.snd heq
      subst hn
      subst hv
      cases hl : schema.lookup n with
      | none =>
        exact ⟨n ++ " is not an attribute of this kind",
          by simp [checkSupplied, hl]⟩
      | some t =>
        have hbv : t.validFor v = false := by
          rcases hbad with h0 | ⟨t', ht', hv'⟩
          · rw [h0] at hl
            cases hl
          · rw [ht'] at hl
            have : t' = t := Option.some.inj hl
            rw [← this]
            exact hv'
        exact ⟨typeErrorMsg n t, by simp [checkSupplied, hl, hbv]⟩
    · cases hl : schema.lookup m with
      | none =>
        exact ⟨m ++ " is not an attribute of this kind",
          by simp [checkSupplied, hl]⟩
      | some t =>
        cases hv : t.validFor w with
        | false => exact ⟨typeErrorMsg m t, by simp [checkSupplied, hl, hv]⟩
        | true =>
          obtain ⟨msg, hmsg⟩ := ih hmem'
          exact ⟨msg, by simp [checkSupplied, hl, hv, hmsg]⟩

/-- Claim C7: for a live entity id, an update whose partial map contains an
attribute name unknown to the kind's schema fails with `ValidationError`
and leaves the registry (hence the entity) unchanged; an update on an
absent or removed id fails with `NotFoundError`. -/
theorem update_rejects_unknown_and_missing (r : Registry) (X : Nat)
    (upd : List (String × Value)) :
    (∀ e, r.findEntity X = some e → e.deleted = false →
      ∀ n v, (n, v) ∈ upd → r.schema.lookup n = none →
        (∃ msg, r.update X upd = .error (.validationError msg)) ∧
        applyOp r (.updateOp X upd) = r) ∧
    ((r.findEntity X = none ∨ isDeleted r X = true) →
      r.update X upd = .error .notFoundError) := by
  constructor
  · intro e hfind hlive n v hmem hunk
    obtain ⟨msg, hmsg⟩ :=
      checkSupplied_isSome_of_bad r.schema upd n v hmem (Or.inl hunk)
    have herr : r.update X upd = .error (.validationError msg) := by
      unfold Registry.update
      rw [hfind]
      simp [hlive, hmsg]
    exact ⟨⟨msg, herr⟩, by simp [applyOp, herr]⟩
  · intro hcase
    rcases hcase with hnone | hdel
    · unfold Registry.update
      rw [hnone]
    · unfold isDeleted at hdel
      unfold Registry.update
      split at hdel
      · rename_i e he
        rw [he]
        simp [hdel]
      · exact absurd hdel (by simp)

/-- Witness for C7: updating the example meal with the unknown attribute
"bogus" fails with a validation error and changes nothing; updating the
absent id 999 fails with `NotFoundError`. -/
theorem update_rejects_unknown_and_missing_witness :
    mealRegistry1.findEntity 1 = some mealEntity1 ∧
    mealEntity1.deleted = false ∧
    ("bogus", Value.str "x") ∈ [("bogus", Value.str "x")] ∧
    mealRegistry1.schema.lookup "bogus" = none ∧
    ((∃ msg, mealRegistry1.update 1 [("bogus", Value.str "x")] =
        .error (.validationError msg)) ∧
      applyOp mealRegistry1 (.updateOp 1 [("bogus", Value.str "x")]) =
        mealRegistry1) ∧
    mealRegistry1.findEntity 999 = none ∧
    mealRegistry1.update 999 [("price", Value.num 5)] =
      .error .notFoundError :=
  ⟨rfl, rfl, List.mem_singleton.mpr rfl, rfl,
   (update_rejects_unknown_and_missing mealRegistry1 1
       [("bogus", Value.str "x")]).1 mealEntity1 rfl rfl "bogus"
     (Value.str "x") (List.mem_singleton.mpr rfl) rfl,
   rfl,
   (update_rejects_unknown_and_missing mealRegistry1 999
       [("price", Value.num 5)]).2 (Or.inl rfl)⟩

/-- Claim C8: `create` validates before inserting — any attribute set
carrying a negative price fails with `ValidationError` and leaves the
registry unchanged, and the spec section 8 example call with price -1.0
fails with the message "price must be ≥ 0". -/
theorem create_rejects_negative_price (r : Registry) (eid : Option Nat)
    (A : List (String × Value)) (q : Rat)
    (hmem : ("price", Value.num q) ∈ A) (hq : q < 0)
    (hsch : r.schema.lookup "price" = some FieldType.nonnegNum) :
    ((∃ msg, r.create eid A = .error (.validationError msg)) ∧
      applyOp r (.createOp eid A) = r) ∧
    (Registry.empty mealSchema).create none mealExampleBadAttrs =
      .error (.validationError "price must be ≥ 0") := by
  have hbad : FieldType.nonnegNum.validFor (Value.num q) = false := by
    simp only [FieldType.validFor, decide_eq_false_iff_not]
    exact not_le.mpr hq
  obtain ⟨msg, hmsg⟩ := checkSupplied_isSome_of_bad r.schema A "price"
    (Value.num q) hmem (Or.inr ⟨_, hsch, hbad⟩)
  have herr : r.create eid A = .error (.validationError msg) := by
    unfold Registry.create validateAttrs
    rw [hmsg]
  exact ⟨⟨⟨msg, herr⟩, by simp [applyOp, herr]⟩, rfl⟩

/-- Witness for C8: the spec section 8 example call with price -1.0 on an
empty meal registry. -/
theorem create_rejects_negative_price_witness :
    ("price", Value.num (-1)) ∈ mealExampleBadAttrs ∧
    (-1 : Rat) < 0 ∧
    (Registry.empty mealSchema).schema.lookup "price" =
      some FieldType.nonnegNum ∧
    ((∃ msg, (Registry.empty mealSchema).create none mealExampleBadAttrs =
        .error (.validationError msg)) ∧
      applyOp (Registry.empty mealSchema)
        (.createOp none mealExampleBadAttrs) = Registry.empty mealSchema) :=
  ⟨by decide, by decide, rfl,
   (create_rejects_negative_price (Registry.empty mealSchema) none
     mealExampleBadAttrs (-1) (by decide) (by decide) rfl).1⟩

/-- Claim C9: `Animal.__init__` coerces every falsy `age` or
`health_status` argument to `None`: an age of `None` or `0` is stored as
`None`, and a health_status of `None` or the empty string is stored as
`None`. -/
theorem animal_init_coerces_falsy (a : Option Int) (i : Int)
    (hs : Option String) (s : String) :
    ((a = none ∨ a = some 0) → (Animal.init a i hs s).age = none) ∧
    ((hs = none ∨ hs = some "") →
      (Animal.init a i hs s).health_status = none) := by
  constructor
  · rintro (rfl | rfl) <;> simp [Animal.init, pyOrNoneInt]
  · rintro (rfl | rfl) <;> simp [Animal.init, pyOrNoneStr]

/-- Witness for C9: an animal constructed with age 0 and empty
health_status stores `None` for both. -/
theorem animal_init_coerces_falsy_witness :
    ((some (0 : Int)) = none ∨ (some (0 : Int)) = some 0) ∧
    ((some "") = (none : Option String) ∨ (some "") = some "") ∧
    (Animal.init (some 0) 7 (some "") "lion").age = none ∧
    (Animal.init (some 0) 7 (some "") "lion").health_status = none :=
  ⟨Or.inr rfl, Or.inr rfl,
   (animal_init_coerces_falsy (some 0) 7 (some "") "lion").1 (Or.inr rfl),
   (animal_init_coerces_falsy (some 0) 7 (some "") "lion").2 (Or.inr rfl)⟩

/-- Claim C10: constructing a `HabitatManager` always succeeds (the
embedded constructor is a total definition) and yields an object that
carries no habitat store: the dict literal in `__init__` is bound to a
local variable only, so no "habitats" instance attribute exists on the
constructed object. -/
theorem habitat_manager_init_carries_no_store :
    HabitatManager.init = [] ∧
    HabitatManager.init.lookup "habitats" = none :=
  ⟨rfl, rfl⟩
